import Mathlib

/-!
Verification of `scripts/download_aks_specs.py` (the AKS spec fetcher).

The script is embedded as a pure trace semantics.  A run of the program is a
pair of an event trace (prints, directory creations, HTTP GET requests, file
writes) and a termination result.  The network is an oracle mapping URLs to
responses; the filesystem is never read by the script, only written, so file
writes are recorded as events and a separate fold recovers the final
filesystem contents.

Python exception semantics relevant to the script:
* `requests.get` raises a `requests.exceptions.RequestException` on
  network-level failure;
* `Response.raise_for_status` raises `requests.exceptions.HTTPError`
  (a `RequestException`) exactly when the status code is in 400..599;
* `Response.json` raises `requests.exceptions.JSONDecodeError`
  (a subclass of `RequestException` since requests 2.27) when the body is
  not valid JSON;
* subscripting a dict with a missing key raises `KeyError`; subscripting a
  non-dict JSON value with a string raises `TypeError`;
* `sys.exit(1)` raises `SystemExit`, which is not caught by
  `except requests.exceptions.RequestException`.
-/

set_option autoImplicit false
set_option maxRecDepth 16384

namespace AksSpecs

/-- JSON values, as produced by `Response.json()`. -/
inductive Json where
  | null
  | bool (b : Bool)
  | num (n : Int)
  | str (s : String)
  | arr (elems : List Json)
  | obj (fields : List (String × Json))

/-- The Python exceptions the script can raise or observe.
`requestException` stands for the whole `requests.exceptions.RequestException`
class (including `HTTPError` and `JSONDecodeError`); the script never
distinguishes members of that class. -/
inductive Exc where
  | requestException
  | keyError (key : String)
  | typeError
  | systemExit (code : Nat)
deriving DecidableEq

/-- Observable side effects of a run, in order of occurrence. -/
inductive Event where
  | print (msg : String)
  | eprint (msg : String)
  | mkdir (path : List String)
  | get (url : String)
  | write (path : List String) (content : List Nat)
deriving DecidableEq

/-- An HTTP response: status code, raw body bytes, and the result of parsing
the body as JSON (`none` when the body is not valid JSON, in which case
`Response.json()` raises `JSONDecodeError`, a `RequestException`). -/
structure HttpResponse where
  status : Nat
  body : List Nat
  jsonBody : Option Json

/-- Result of `requests.get`: either a network-level `RequestException`
or a response. -/
inductive ReqResult where
  | netErr
  | resp (r : HttpResponse)

/-- The network oracle: what each URL returns during this run. -/
abbrev Net := String → ReqResult

/-- `BASE_URL` constant from the script. -/
def BASE_URL : String :=
  "https://raw.githubusercontent.com/Azure/azure-rest-api-specs/main"

/-- `SPEC_PATH` constant from the script. -/
def SPEC_PATH : String :=
  "specification/containerservice/resource-manager/Microsoft.ContainerService/aks/stable/2025-03-01"

/-- `PROJECT_ROOT` is derived from the location of the script on disk
(`Path(os.path.dirname(os.path.realpath(__file__))).parent`); its concrete
value is irrelevant to every claim, so it is an abstract one-segment path. -/
def PROJECT_ROOT : List String := ["<project-root>"]

/-- `TARGET_DIR = PROJECT_ROOT / "azure_spec"`. -/
def TARGET_DIR : List String := PROJECT_ROOT ++ ["azure_spec"]

/-- URL of the main spec file (line 47 of the script). -/
def mainSpecUrl : String := BASE_URL ++ "/" ++ SPEC_PATH ++ "/managedClusters.json"

/-- URL of the examples directory-listing API endpoint (line 52). -/
def examplesApiUrl : String :=
  "https://api.github.com/repos/Azure/azure-rest-api-specs/contents/" ++ SPEC_PATH ++ "/examples"

/-- Render a path for printing, as `pathlib` does. -/
def pathStr (p : List String) : String := String.intercalate "/" p

/-- First-match association-list lookup for JSON object fields (Python dicts
produced by `json` have unique keys, so first-match equals dict lookup). -/
def jlookup : List (String × Json) → String → Option Json
  | [], _ => none
  | (k, v) :: rest, key => if k = key then some v else jlookup rest key

/-- Python subscript `value[key]` with a string key: a dict lookup that raises
`KeyError` when the key is missing, and `TypeError` when the value is not a
dict. -/
def pySubscript : Json → String → Except Exc Json
  | .obj fields, key =>
      match jlookup fields key with
      | some v => .ok v
      | none => .error (.keyError key)
  | _, _ => .error .typeError

/-- Python iteration `for x in value`: lists yield their elements, dicts yield
their keys, strings yield their one-character substrings; other values raise
`TypeError` (not iterable). -/
def pyIter : Json → Except Exc (List Json)
  | .arr elems => .ok elems
  | .obj fields => .ok (fields.map (fun kv => Json.str kv.1))
  | .str s => .ok (s.data.map (fun c => Json.str (String.singleton c)))
  | _ => .error .typeError

/-- The comparison `example["type"] == "file"` (line 63): true exactly for the
JSON string `"file"`. -/
def isFileType : Json → Bool
  | .str s => s = "file"
  | _ => false

/-- Using a JSON value as a path segment (`TARGET_DIR / "examples" / filename`,
line 68): `pathlib` raises `TypeError` unless it is a string. -/
def asString : Json → Except Exc String
  | .str s => .ok s
  | _ => .error .typeError

/-- Rendering of a JSON value inside a Python f-string (line 67).  Non-scalar
renderings are abbreviated; no claim depends on their exact text. -/
def pyFormat : Json → String
  | .str s => s
  | .num n => toString n
  | .bool b => if b then "True" else "False"
  | .null => "None"
  | .arr _ => "[...]"
  | .obj _ => "\x7b...\x7d"

/-- The error message printed to stderr by `download_file` (line 89); the
appended exception text is abstracted away. -/
def downloadErrMsg (url : String) : String :=
  "Error: Failed to download " ++ url

/-- The error message printed to stderr by the listing handler (line 74); the
appended exception text is abstracted away. -/
def listingErrMsg : String :=
  "Error: Failed to get list of example files"

/-- `download_file(url, dest_path)` (lines 77-90).  Returns immediately in
dry-run mode; otherwise issues a GET, treats a network error or a status in
400..599 (exactly the window `raise_for_status` raises on) as fatal
(`sys.exit(1)` after printing to stderr), and for any other status —
including statuses of 600 and above, on which `raise_for_status` is
silent — writes the raw body to the destination.  The url argument is
whatever JSON value the listing supplied; `requests` rejects a non-string
URL with `MissingSchema` (a `RequestException`) before issuing any request,
which the handler turns into the same fatal exit. -/
def download_file (args : List String) (net : Net) (url : Json)
    (dest : List String) : List Event × Except Exc Unit :=
  if args.contains "--dry-run" then ([], .ok ())
  else
    match url with
    | .str u =>
        match net u with
        | .netErr => ([.get u, .eprint (downloadErrMsg u)], .error (.systemExit 1))
        | .resp r =>
            if 400 ≤ r.status ∧ r.status < 600 then
              ([.get u, .eprint (downloadErrMsg u)], .error (.systemExit 1))
            else
              ([.get u, .write dest r.body], .ok ())
    | u => ([.eprint (downloadErrMsg (pyFormat u))], .error (.systemExit 1))

/-- The per-entry loop over the listing (lines 62-68), threading
`file_count`.  For each entry: look up `"type"`; if it equals `"file"`, look
up `"name"` and `"download_url"`, increment the count, print the filename,
and download to `TARGET_DIR / "examples" / filename`.  Any exception aborts
the loop and propagates. -/
def processExamples (args : List String) (net : Net) :
    List Json → Nat → List Event × Except Exc Nat
  | [], count => ([], .ok count)
  | e :: rest, count =>
    match pySubscript e "type" with
    | .error exc => ([], .error exc)
    | .ok t =>
      if isFileType t then
        match pySubscript e "name" with
        | .error exc => ([], .error exc)
        | .ok nm =>
          match pySubscript e "download_url" with
          | .error exc => ([], .error exc)
          | .ok du =>
            let printEv : Event := .print ("  - " ++ pyFormat nm)
            match asString nm with
            | .error exc => ([printEv], .error exc)
            | .ok filename =>
              let dl := download_file args net du (TARGET_DIR ++ ["examples", filename])
              match dl.2 with
              | .error exc => (printEv :: dl.1, .error exc)
              | .ok _ =>
                let tail := processExamples args net rest (count + 1)
                (printEv :: dl.1 ++ tail.1, tail.2)
      else
        processExamples args net rest count

/-- The summary line (lines 70-71): note the `file_count + 1`. -/
def summaryMsg (args : List String) (count : Nat) : String :=
  "Download completed"
  ++ (if args.contains "--dry-run" then " (dry run - no files were actually downloaded)" else "")
  ++ ". " ++ toString (count + 1) ++ " files would be downloaded to "
  ++ pathStr TARGET_DIR ++ "/"

/-- Body of the `try` block (lines 55-72): GET the listing, raise for status,
parse JSON, iterate, and print the summary.  `requestException` errors are
produced by a network failure, a status in 400..599 (the only statuses
`raise_for_status` raises on), or an unparsable body.  When the parsed JSON
is not iterable, the `TypeError` is raised by the `for` statement (line 62),
after the "Downloading example files..." print of line 60. -/
def tryBlock (args : List String) (net : Net) : List Event × Except Exc Nat :=
  match net examplesApiUrl with
  | .netErr => ([.get examplesApiUrl], .error .requestException)
  | .resp r =>
    if 400 ≤ r.status ∧ r.status < 600 then
      ([.get examplesApiUrl], .error .requestException)
    else
      match r.jsonBody with
      | none => ([.get examplesApiUrl], .error .requestException)
      | some j =>
        match pyIter j with
        | .error exc =>
            ([.get examplesApiUrl, .print "Downloading example files..."], .error exc)
        | .ok entries =>
          let loop := processExamples args net entries 0
          match loop.2 with
          | .error exc =>
              (.get examplesApiUrl :: .print "Downloading example files..." :: loop.1,
               .error exc)
          | .ok count =>
              (.get examplesApiUrl :: .print "Downloading example files..." :: loop.1
                 ++ [.print (summaryMsg args count)],
               .ok 0)

/-- The prints and directory creations at the top of `main` (lines 32-46). -/
def preambleTrace (args : List String) : List Event :=
  [.print ("Target directory: " ++ pathStr TARGET_DIR)]
  ++ (if args.contains "--dry-run" then [.print "Dry run mode: files will not be downloaded"] else [])
  ++ (if args.contains "--dry-run" then [] else [.mkdir TARGET_DIR, .mkdir (TARGET_DIR ++ ["examples"])])
  ++ [.print "Downloading AKS API specs from GitHub...",
      .print "Downloading managedClusters.json..."]

/-- `main()` (lines 29-75).  The `try/except requests.exceptions.RequestException`
around the listing turns exactly `requestException` errors into the recovered
path (stderr message, return 1); every other exception propagates. -/
def main (args : List String) (net : Net) : List Event × Except Exc Nat :=
  let spec := download_file args net (.str mainSpecUrl) (TARGET_DIR ++ ["managedClusters.json"])
  match spec.2 with
  | .error exc => (preambleTrace args ++ spec.1, .error exc)
  | .ok _ =>
    let body := tryBlock args net
    let rest : List Event × Except Exc Nat :=
      match body.2 with
      | .error .requestException => (body.1 ++ [.eprint listingErrMsg], .ok 1)
      | other => (body.1, other)
    (preambleTrace args ++ spec.1 ++ [.print "Getting list of example files..."] ++ rest.1,
     rest.2)

/-- How the process terminates: a normal exit with a code (via
`sys.exit(main())` or the `sys.exit(1)` in `download_file`), or an uncaught
exception (which aborts the process with a traceback). -/
inductive TermResult where
  | exited (code : Nat)
  | uncaughtExc (e : Exc)
deriving DecidableEq

/-- Abbreviated rendering of `sys.argv` for the `__main__` echo line; no
claim depends on its exact text, only on it varying with the arguments. -/
def fmtArgs (args : List String) : String := String.intercalate " " args

/-- Whole-process behaviour (`__main__` block, lines 92-96): echo the
arguments and paths, run `main`, and exit with its return value.  `args`
models the full `sys.argv` (Python includes the program name in it; the
script only ever tests membership of `"--dry-run"`). -/
def runScript (args : List String) (net : Net) : List Event × TermResult :=
  let echo : List Event :=
    [.print ("Script arguments: " ++ fmtArgs args),
     .print ("Project root: " ++ pathStr PROJECT_ROOT),
     .print ("Target directory: " ++ pathStr TARGET_DIR)]
  let m := main args net
  (echo ++ m.1,
   match m.2 with
   | .ok n => .exited n
   | .error (.systemExit c) => .exited c
   | .error e => .uncaughtExc e)

/-- A filesystem: maps a path to the bytes stored there, if any. -/
abbrev FS := List String → Option (List Nat)

/-- Effect of one event on the filesystem: a write stores the content at the
path, overwriting whatever was there; no other event changes file contents. -/
def applyEvent (fs : FS) : Event → FS
  | .write p c => fun q => if q = p then some c else fs q
  | _ => fs

/-- Filesystem after a trace of events. -/
def runFS (fs : FS) (tr : List Event) : FS := tr.foldl applyEvent fs

/-- Is this event a directory creation? -/
def Event.isMkdir : Event → Bool
  | .mkdir _ => true
  | _ => false

/-- Is this event a file write? -/
def Event.isWrite : Event → Bool
  | .write _ _ => true
  | _ => false

/-- Is this event a print to stdout? -/
def Event.isPrint : Event → Bool
  | .print _ => true
  | _ => false

/-- Is this event an HTTP GET request? -/
def Event.isGet : Event → Bool
  | .get _ => true
  | _ => false

/-- The body served by the network for a URL (empty when the request fails
at the network level; only used under a success hypothesis). -/
def respBody (net : Net) (u : String) : List Nat :=
  match net u with
  | .resp r => r.body
  | .netErr => []

/-- The `name` field of a listing entry, for well-formed file entries. -/
def entryName : Json → String
  | .obj fields =>
      match jlookup fields "name" with
      | some (.str s) => s
      | _ => ""
  | _ => ""

/-- The `download_url` field of a listing entry, for well-formed file
entries. -/
def entryUrl : Json → String
  | .obj fields =>
      match jlookup fields "download_url" with
      | some (.str s) => s
      | _ => ""
  | _ => ""

/-- The HTTP status the listing endpoint answered with, if it answered. -/
def listingStatus (net : Net) : Option Nat :=
  match net examplesApiUrl with
  | .resp r => some r.status
  | .netErr => none

/-- Does this run download `url` without a fatal error?  True when dry-run
skips the download, or when the network returns a response whose status is
outside 400..599 (so `raise_for_status` does not raise — this includes
statuses of 600 and above). -/
def dlOk (args : List String) (net : Net) (url : String) : Bool :=
  args.contains "--dry-run" ||
    match net url with
    | .netErr => false
    | .resp r => decide (r.status < 400 ∨ 600 ≤ r.status)

/-- Is this listing entry one the loop counts and downloads: a JSON object
whose `"type"` field equals the string `"file"`? -/
def isFileEntry : Json → Bool
  | .obj fields =>
      match jlookup fields "type" with
      | some t => isFileType t
      | none => false
  | _ => false

/-- Number of file-type entries in a listing. -/
def countFiles (entries : List Json) : Nat := (entries.filter isFileEntry).length

/-- A listing entry the loop can process without raising: an object with a
`"type"` field, and — when that field equals `"file"` — string `"name"`
and `"download_url"` fields such that the download succeeds (or dry-run). -/
def entryOk (args : List String) (net : Net) : Json → Bool
  | .obj fields =>
      match jlookup fields "type" with
      | none => false
      | some t =>
        if isFileType t then
          match jlookup fields "name", jlookup fields "download_url" with
          | some (.str _), some (.str u) => dlOk args net u
          | _, _ => false
        else true
  | _ => false

/-- The events the loop emits for one well-formed entry: nothing for a
non-file entry; the filename print followed by the download trace for a
file entry. -/
def entryTrace (args : List String) (net : Net) : Json → List Event
  | .obj fields =>
      match jlookup fields "type" with
      | some t =>
        if isFileType t then
          match jlookup fields "name", jlookup fields "download_url" with
          | some (.str nm), some du =>
              .print ("  - " ++ nm) ::
                (download_file args net du (TARGET_DIR ++ ["examples", nm])).1
          | _, _ => []
        else []
      | none => []
  | _ => []

/-- Does the listing request fail in one of the ways `requests` reports
through its exception class: network error, a status in 400..599 (the
`raise_for_status` window), or a body that is not valid JSON? -/
def listingFailsB (net : Net) : Bool :=
  match net examplesApiUrl with
  | .netErr => true
  | .resp r => decide (400 ≤ r.status ∧ r.status < 600) || r.jsonBody.isNone

/-- The first key whose dict lookup the loop body would fail on for an
object entry, in the order the code performs the lookups. -/
def firstMissingKey (fields : List (String × Json)) : Option String :=
  match jlookup fields "type" with
  | none => some "type"
  | some t =>
    if isFileType t then
      match jlookup fields "name" with
      | none => some "name"
      | some _ =>
        match jlookup fields "download_url" with
        | none => some "download_url"
        | some _ => none
    else none

/-! ### Concrete fixtures used to evaluate the theorems on closed inputs -/

/-- A well-formed file-type listing entry. -/
def fileEntry (nm u : String) : Json :=
  .obj [("type", .str "file"), ("name", .str nm), ("download_url", .str u)]

/-- A listing entry whose type is not `"file"` (GitHub reports
subdirectories with type `"dir"`). -/
def dirEntry : Json := .obj [("type", .str "dir"), ("name", .str "sub")]

/-- A network where every request fails at the network level. -/
def netAllErr : Net := fun _ => .netErr

/-- A network where every request succeeds: the listing returns one file
entry and one directory entry, and every other URL serves two bytes. -/
def netGood : Net := fun u =>
  if u = examplesApiUrl then
    .resp ⟨200, [123], some (.arr [fileEntry "a.json" "http://x/a.json", dirEntry])⟩
  else
    .resp { status := 200, body := [7, 8], jsonBody := none }

/-- A network where the listing request itself returns HTTP 404. -/
def netListing404 : Net := fun u =>
  if u = examplesApiUrl then .resp { status := 404, body := [], jsonBody := none }
  else .resp { status := 200, body := [7, 8], jsonBody := none }

/-- A network where the main spec download returns HTTP 500 while the
listing endpoint would respond successfully. -/
def netSpecFail : Net := fun u =>
  if u = examplesApiUrl then
    .resp { status := 200, body := [123], jsonBody := some (.arr []) }
  else
    .resp { status := 500, body := [], jsonBody := none }

/-- A network where the listing succeeds with two file entries but the
second file download fails with HTTP 500. -/
def netSecondFails : Net := fun u =>
  if u = examplesApiUrl then
    .resp ⟨200, [123],
      some (.arr [fileEntry "a.json" "http://x/a.json", fileEntry "b.json" "http://x/b.json"])⟩
  else if u = "http://x/b.json" then
    .resp { status := 500, body := [], jsonBody := none }
  else
    .resp { status := 200, body := [7, 8], jsonBody := none }

/-- A network where the listing returns status 300 (not 2xx, but below the
400 threshold of `raise_for_status`) with a valid empty JSON array body. -/
def netListing300 : Net := fun u =>
  if u = examplesApiUrl then
    .resp { status := 300, body := [123], jsonBody := some (.arr []) }
  else
    .resp { status := 200, body := [7, 8], jsonBody := none }

/-- A network where the listing is a valid JSON array whose single entry
is an object with no `"type"` key. -/
def netMissingType : Net := fun u =>
  if u = examplesApiUrl then
    .resp ⟨200, [123], some (.arr [.obj [("name", .str "a.json")]])⟩
  else
    .resp { status := 200, body := [7, 8], jsonBody := none }

/-- A network where the listing endpoint returns HTTP 200 but a body that
is not valid JSON. -/
def netBadJson : Net := fun u =>
  if u = examplesApiUrl then .resp { status := 200, body := [60], jsonBody := none }
  else .resp { status := 200, body := [7, 8], jsonBody := none }

/-- A network whose every response carries status 700: outside both the 2xx
success range and the 400..599 window `raise_for_status` raises on. -/
def netStatus700 : Net := fun _ =>
  .resp { status := 700, body := [9], jsonBody := none }

/-! ### Basic lemmas about `download_file` -/

theorem download_file_dryRun (args : List String) (net : Net)
    (h : args.contains "--dry-run" = true) (url : Json) (dest : List String) :
    download_file args net url dest = ([], .ok ()) := by
  unfold download_file
  rw [h]
  simp

theorem download_file_of_dlOk (args : List String) (net : Net) (u : String)
    (dest : List String) (h : dlOk args net u = true) :
    (download_file args net (.str u) dest).2 = .ok () := by
  unfold dlOk at h
  unfold download_file
  rcases hd : args.contains "--dry-run" with _ | _
  · rw [hd] at h
    simp only [Bool.false_or] at h
    simp only [Bool.false_eq_true, if_false]
    rcases hn : net u with _ | r
    · rw [hn] at h; exact absurd h (by simp)
    · rw [hn] at h
      simp only [decide_eq_true_eq] at h
      have hcond : ¬ (400 ≤ r.status ∧ r.status < 600) := by omega
      simp [hcond]
  · simp

theorem download_file_get_fail (args : List String) (net : Net) (u : String)
    (dest : List String) (hd : args.contains "--dry-run" = false)
    (h : dlOk args net u = false) :
    download_file args net (.str u) dest =
      ([.get u, .eprint (downloadErrMsg u)], .error (.systemExit 1)) := by
  unfold dlOk at h
  rw [hd] at h
  simp only [Bool.false_or] at h
  unfold download_file
  rw [hd]
  simp only [Bool.false_eq_true, if_false]
  rcases hn : net u with _ | r
  · rfl
  · rw [hn] at h
    simp only [decide_eq_false_iff_not] at h
    have hcond : 400 ≤ r.status ∧ r.status < 600 := by omega
    simp [hcond]

/-! ### Lemmas about the per-entry loop -/

theorem processExamples_cons_ok (args : List String) (net : Net) (e : Json)
    (rest : List Json) (c : Nat) (h : entryOk args net e = true) :
    processExamples args net (e :: rest) c =
      (entryTrace args net e
         ++ (processExamples args net rest (c + (if isFileEntry e then 1 else 0))).1,
       (processExamples args net rest (c + (if isFileEntry e then 1 else 0))).2) := by
  rcases e with _ | b | n | s | elems | fields
  · exact Bool.noConfusion h
  · exact Bool.noConfusion h
  · exact Bool.noConfusion h
  · exact Bool.noConfusion h
  · exact Bool.noConfusion h
  simp only [entryOk] at h
  rcases hT : jlookup fields "type" with _ | t
  · simp only [hT] at h; exact Bool.noConfusion h
  simp only [hT] at h
  rcases hft : isFileType t with _ | _
  · simp only [processExamples, pySubscript, hT, hft, entryTrace, isFileEntry,
      Bool.false_eq_true, if_false, List.nil_append, Nat.add_zero]
  · simp only [hft, if_true] at h
    rcases hN : jlookup fields "name" with _ | nm
    · simp only [hN] at h; exact Bool.noConfusion h
    simp only [hN] at h
    rcases hU : jlookup fields "download_url" with _ | du
    · simp only [hU] at h; exact Bool.noConfusion h
    simp only [hU] at h
    rcases nm with _ | b2 | n2 | nms | es2 | fs2 <;> try simp at h
    rcases du with _ | b3 | n3 | dus | es3 | fs3 <;> try simp at h
    have hdl := download_file_of_dlOk args net dus (TARGET_DIR ++ ["examples", nms]) h
    simp only [processExamples, pySubscript, hT, hft, hN, hU, if_true, asString,
      pyFormat, entryTrace, isFileEntry, hdl, List.cons_append, List.append_assoc]

theorem processExamples_append (args : List String) (net : Net) (pre rest : List Json)
    (c : Nat) (h : ∀ j ∈ pre, entryOk args net j = true) :
    processExamples args net (pre ++ rest) c =
      ((pre.map (entryTrace args net)).flatten
         ++ (processExamples args net rest (c + countFiles pre)).1,
       (processExamples args net rest (c + countFiles pre)).2) := by
  induction pre generalizing c with
  | nil => simp [countFiles]
  | cons e pre ih =>
    have he := h e (by simp)
    have hpre : ∀ j ∈ pre, entryOk args net j = true := fun j hj => h j (by simp [hj])
    rw [List.cons_append, processExamples_cons_ok args net e (pre ++ rest) c he,
      ih _ hpre]
    have hc : c + (if isFileEntry e then 1 else 0) + countFiles pre
        = c + countFiles (e :: pre) := by
      rcases hf : isFileEntry e with _ | _
      all_goals simp [countFiles, List.filter_cons, hf]
      all_goals omega
    rw [hc]
    simp [List.append_assoc]

theorem processExamples_allOk (args : List String) (net : Net) (xs : List Json)
    (c : Nat) (h : ∀ j ∈ xs, entryOk args net j = true) :
    processExamples args net xs c =
      ((xs.map (entryTrace args net)).flatten, .ok (c + countFiles xs)) := by
  have happ := processExamples_append args net xs [] c h
  simpa [processExamples] using happ

/-! ### Dry-run behaviour -/

theorem isPrint_safe (e : Event) (hp : e.isPrint = true) :
    e.isMkdir = false ∧ e.isWrite = false := by
  rcases e <;> simp_all [Event.isPrint, Event.isMkdir, Event.isWrite]

theorem processExamples_dryRun_print (args : List String) (net : Net)
    (hc : args.contains "--dry-run" = true) :
    ∀ (xs : List Json) (c : Nat) (e : Event),
      e ∈ (processExamples args net xs c).1 → e.isPrint = true := by
  intro xs
  induction xs with
  | nil =>
    intro c e he
    simp [processExamples] at he
  | cons x rest ih =>
    intro c e he
    simp only [processExamples, download_file_dryRun args net hc] at he
    repeat' split at he
    all_goals try dsimp only at he
    all_goals try simp only [List.nil_append, List.singleton_append, List.not_mem_nil,
      List.mem_singleton, List.mem_cons, List.mem_append, or_false, false_or] at he
    all_goals
      first
        | exact absurd he (List.not_mem_nil e)
        | (rw [he]; rfl)
        | exact ih _ e he
        | exact he.elim (fun hh => by rw [hh]; rfl) (fun hmem => ih _ e hmem)

theorem tryBlock_dryRun_shape (args : List String) (net : Net)
    (hc : args.contains "--dry-run" = true) :
    ∃ tail, (tryBlock args net).1 = .get examplesApiUrl :: tail
      ∧ ∀ e ∈ tail, e.isPrint = true := by
  rcases hn : net examplesApiUrl with _ | r
  · exact ⟨[], by simp [tryBlock, hn], by simp⟩
  by_cases hs : 400 ≤ r.status ∧ r.status < 600
  · exact ⟨[], by simp [tryBlock, hn, hs], by simp⟩
  rcases hj : r.jsonBody with _ | j
  · exact ⟨[], by simp [tryBlock, hn, hs, hj], by simp⟩
  rcases hit : pyIter j with exc | entries
  · exact ⟨[.print "Downloading example files..."],
      by simp [tryBlock, hn, hs, hj, hit], by simp [Event.isPrint]⟩
  rcases hp : processExamples args net entries 0 with ⟨tr, res⟩
  have htr : ∀ e ∈ tr, e.isPrint = true := by
    intro e he
    exact processExamples_dryRun_print args net hc entries 0 e (by rw [hp]; exact he)
  rcases res with exc | count
  · refine ⟨.print "Downloading example files..." :: tr,
      by simp [tryBlock, hn, hs, hj, hit, hp], ?_⟩
    intro e he
    rcases List.mem_cons.mp he with rfl | hmem
    · rfl
    · exact htr e hmem
  · refine ⟨.print "Downloading example files..." :: tr
      ++ [.print (summaryMsg args count)],
      by simp [tryBlock, hn, hs, hj, hit, hp], ?_⟩
    intro e he
    rcases List.mem_append.mp he with hmem | hmem
    · rcases List.mem_cons.mp hmem with rfl | hmem2
      · rfl
      · exact htr e hmem2
    · simp only [List.mem_singleton] at hmem
      rw [hmem]
      rfl

theorem runScript_dryRun_trace (args : List String) (net : Net)
    (hc : args.contains "--dry-run" = true) :
    ∃ tail, (runScript args net).1
      = [.print ("Script arguments: " ++ fmtArgs args),
         .print ("Project root: " ++ pathStr PROJECT_ROOT),
         .print ("Target directory: " ++ pathStr TARGET_DIR),
         .print ("Target directory: " ++ pathStr TARGET_DIR),
         .print "Dry run mode: files will not be downloaded",
         .print "Downloading AKS API specs from GitHub...",
         .print "Downloading managedClusters.json...",
         .print "Getting list of example files...",
         .get examplesApiUrl] ++ tail
      ∧ ∀ e ∈ tail, e.isPrint = true ∨ e = .eprint listingErrMsg := by
  obtain ⟨t, htb, htail⟩ := tryBlock_dryRun_shape args net hc
  have hm : "--dry-run" ∈ args := by simpa using hc
  rcases hres : (tryBlock args net).2 with exc | n
  case error =>
    rcases exc with _ | k | _ | code
    case requestException =>
      refine ⟨t ++ [.eprint listingErrMsg], ?_, ?_⟩
      · simp [runScript, main, download_file_dryRun args net hc, preambleTrace, hc,
          hres, htb, hm]
      · intro e he
        rcases List.mem_append.mp he with hmem | hmem
        · exact Or.inl (htail e hmem)
        · simp only [List.mem_singleton] at hmem
          exact Or.inr hmem
    all_goals
      exact ⟨t, by simp [runScript, main, download_file_dryRun args net hc,
        preambleTrace, hc, hres, htb, hm], fun e he => Or.inl (htail e he)⟩
  case ok =>
    exact ⟨t, by simp [runScript, main, download_file_dryRun args net hc,
      preambleTrace, hc, hres, htb, hm], fun e he => Or.inl (htail e he)⟩

/-- **C1.** For every run invoked with the `--dry-run` flag present in the
argument list, no directories are created and no files are written to the
filesystem, regardless of what any network request returns. -/
theorem dryRun_no_mkdir_no_write (args : List String) (net : Net)
    (h : "--dry-run" ∈ args) :
    ∀ e ∈ (runScript args net).1, e.isMkdir = false ∧ e.isWrite = false := by
  have hc : args.contains "--dry-run" = true := by simpa using h
  obtain ⟨tail, htr, htail⟩ := runScript_dryRun_trace args net hc
  intro e he
  rw [htr] at he
  rcases List.mem_append.mp he with hmem | hmem
  · simp only [List.mem_cons, List.not_mem_nil, or_false] at hmem
    rcases hmem with rfl | rfl | rfl | rfl | rfl | rfl | rfl | rfl | rfl
    all_goals exact ⟨rfl, rfl⟩
  · rcases htail e hmem with hp | rfl
    · exact isPrint_safe e hp
    · exact ⟨rfl, rfl⟩

/-! ### Success and failure shapes of the listing step -/

theorem download_file_ok_notDry (args : List String) (net : Net) (u : String)
    (dest : List String) (hdry : args.contains "--dry-run" = false)
    (h : dlOk args net u = true) :
    download_file args net (.str u) dest
      = ([.get u, .write dest (respBody net u)], .ok ()) := by
  unfold dlOk at h
  rw [hdry] at h
  simp only [Bool.false_or] at h
  unfold download_file
  rw [hdry]
  simp only [Bool.false_eq_true, if_false]
  rcases hn : net u with _ | r
  · rw [hn] at h; exact Bool.noConfusion h
  · rw [hn] at h
    simp only [decide_eq_true_eq] at h
    have hcond : ¬ (400 ≤ r.status ∧ r.status < 600) := by omega
    simp [hcond, respBody, hn]

theorem download_file_gets (args : List String) (net : Net) (u : String)
    (dest : List String) (v : String)
    (hv : .get v ∈ (download_file args net (.str u) dest).1) : v = u := by
  unfold download_file at hv
  rcases hd : args.contains "--dry-run" with _ | _
  · rw [hd] at hv
    simp only [Bool.false_eq_true, if_false] at hv
    rcases hn : net u with _ | r
    · simp only [hn] at hv
      simp at hv
      exact hv
    · simp only [hn] at hv
      by_cases hs : 400 ≤ r.status ∧ r.status < 600
      · rw [if_pos hs] at hv
        simp at hv
        exact hv
      · rw [if_neg hs] at hv
        simp at hv
        exact hv
  · rw [hd] at hv
    simp at hv

theorem tryBlock_fail (args : List String) (net : Net)
    (h : listingFailsB net = true) :
    tryBlock args net = ([.get examplesApiUrl], .error .requestException) := by
  unfold listingFailsB at h
  rcases hn : net examplesApiUrl with _ | r
  · simp [tryBlock, hn]
  · rw [hn] at h
    simp only [Bool.or_eq_true, decide_eq_true_eq, Option.isNone_iff_eq_none] at h
    by_cases hs : 400 ≤ r.status ∧ r.status < 600
    · simp [tryBlock, hn, hs]
    · have hj : r.jsonBody = none := h.resolve_left hs
      simp [tryBlock, hn, hs, hj]

theorem main_listing_fail (args : List String) (net : Net)
    (hspec : (download_file args net (.str mainSpecUrl)
      (TARGET_DIR ++ ["managedClusters.json"])).2 = .ok ())
    (h : listingFailsB net = true) :
    main args net =
      (preambleTrace args
        ++ (download_file args net (.str mainSpecUrl) (TARGET_DIR ++ ["managedClusters.json"])).1
        ++ [.print "Getting list of example files...", .get examplesApiUrl,
            .eprint listingErrMsg],
       .ok 1) := by
  simp [main, hspec, tryBlock_fail args net h]

theorem tryBlock_ok (args : List String) (net : Net) (r : HttpResponse)
    (xs : List Json) (hn : net examplesApiUrl = .resp r) (hs : r.status < 400)
    (hj : r.jsonBody = some (.arr xs))
    (hx : ∀ j ∈ xs, entryOk args net j = true) :
    tryBlock args net =
      (.get examplesApiUrl :: .print "Downloading example files..."
         :: (xs.map (entryTrace args net)).flatten
         ++ [.print (summaryMsg args (countFiles xs))],
       .ok 0) := by
  have hs2 : ¬ (400 ≤ r.status ∧ r.status < 600) := by omega
  simp [tryBlock, hn, hs2, hj, pyIter, processExamples_allOk args net xs 0 hx]

theorem main_ok (args : List String) (net : Net) (r : HttpResponse)
    (xs : List Json)
    (hspec : (download_file args net (.str mainSpecUrl)
      (TARGET_DIR ++ ["managedClusters.json"])).2 = .ok ())
    (hn : net examplesApiUrl = .resp r) (hs : r.status < 400)
    (hj : r.jsonBody = some (.arr xs))
    (hx : ∀ j ∈ xs, entryOk args net j = true) :
    main args net =
      (preambleTrace args
        ++ (download_file args net (.str mainSpecUrl) (TARGET_DIR ++ ["managedClusters.json"])).1
        ++ [.print "Getting list of example files...", .get examplesApiUrl,
            .print "Downloading example files..."]
        ++ (xs.map (entryTrace args net)).flatten
        ++ [.print (summaryMsg args (countFiles xs))],
       .ok 0) := by
  simp [main, hspec, tryBlock_ok args net r xs hn hs hj hx]

/-! ### Claims about exit codes and the listing request -/

/-- **C2 (counterexample).** The exit code can be 1 although the
example-listing request is issued and succeeds: when an individual example
download returns HTTP 500, `download_file` calls `sys.exit(1)`, so "exit
code 1 exactly when the listing request fails" is false. -/
theorem exit_one_without_listing_failure :
    (runScript ["x"] netSecondFails).2 = .exited 1
    ∧ listingFailsB netSecondFails = false
    ∧ .get examplesApiUrl ∈ (runScript ["x"] netSecondFails).1 := by
  refine ⟨?_, ?_, ?_⟩
  · decide
  · decide
  · decide

/-- **C2 (amended).** The exit code is 0 when the example-listing request
succeeds with a well-formed file listing and all downloads succeed; when the
listing request fails the program prints an error to stderr and exits with
code 1, attempting no example downloads (the only GETs are the main spec and
the listing itself).  Exit code 1 is not exclusive to listing failure. -/
theorem exit_code_semantics (args : List String) (net : Net)
    (hspec : dlOk args net mainSpecUrl = true) :
    (listingFailsB net = true →
        (runScript args net).2 = .exited 1
        ∧ .eprint listingErrMsg ∈ (runScript args net).1
        ∧ ∀ u, .get u ∈ (runScript args net).1 → u = mainSpecUrl ∨ u = examplesApiUrl)
    ∧ ∀ r xs, net examplesApiUrl = .resp r → r.status < 400 →
        r.jsonBody = some (.arr xs) → (∀ j ∈ xs, entryOk args net j = true) →
        (runScript args net).2 = .exited 0 := by
  have hspec2 := download_file_of_dlOk args net mainSpecUrl
    (TARGET_DIR ++ ["managedClusters.json"]) hspec
  constructor
  · intro hf
    have hm := main_listing_fail args net hspec2 hf
    refine ⟨by simp [runScript, hm], by simp [runScript, hm], ?_⟩
    intro u hu
    rcases hdc : args.contains "--dry-run" with _ | _ <;>
    · simp only [runScript, hm, preambleTrace, hdc] at hu
      simp at hu
      rcases hu with hu | hu
      · exact Or.inl (download_file_gets args net mainSpecUrl _ u hu)
      · exact Or.inr hu
  · intro r xs hn hs hj hx
    have hmo := main_ok args net r xs hspec2 hn hs hj hx
    simp [runScript, hmo]

/-- **C2 (witness).** -/
theorem exit_code_semantics_witness :
    (runScript ["x"] netGood).2 = .exited 0 :=
  (exit_code_semantics ["x"] netGood (by decide)).2
    ⟨200, [123], some (.arr [fileEntry "a.json" "http://x/a.json", dirEntry])⟩
    [fileEntry "a.json" "http://x/a.json", dirEntry]
    rfl (by decide) rfl (by decide)

/-- **C7 (counterexample).** A non-2xx HTTP status on the listing response
does not necessarily follow the recovered error path: a 300 response with a
valid JSON array body sails through `raise_for_status` (which only raises
for 4xx/5xx) and the run exits 0 with no error message. -/
theorem noncritical_status_escapes_handler :
    listingStatus netListing300 = some 300
    ∧ (runScript ["--dry-run"] netListing300).2 = .exited 0
    ∧ .eprint listingErrMsg ∉ (runScript ["--dry-run"] netListing300).1 := by
  refine ⟨rfl, ?_, ?_⟩
  · decide
  · decide

/-- **C7 (amended).** Every failure mode of the listing step that
`requests` reports through its exception class — network error, 4xx/5xx
HTTP status (what `raise_for_status` raises on), or a response body that is
not valid JSON — is caught by the single broad handler and follows the
recovered path: an error is printed to stderr and the exit code is 1; in
particular a malformed-JSON listing body never escapes that handler. -/
theorem listing_failures_all_recovered (args : List String) (net : Net)
    (hspec : dlOk args net mainSpecUrl = true) (h : listingFailsB net = true) :
    (runScript args net).2 = .exited 1
    ∧ .eprint listingErrMsg ∈ (runScript args net).1 := by
  have hspec2 := download_file_of_dlOk args net mainSpecUrl
    (TARGET_DIR ++ ["managedClusters.json"]) hspec
  have hm := main_listing_fail args net hspec2 h
  exact ⟨by simp [runScript, hm], by simp [runScript, hm]⟩

/-- **C7 (witness):** a listing body that is not valid JSON takes the
recovered path. -/
theorem listing_failures_all_recovered_witness :
    (runScript [] netBadJson).2 = .exited 1
    ∧ .eprint listingErrMsg ∈ (runScript [] netBadJson).1 :=
  listing_failures_all_recovered [] netBadJson (by decide) (by decide)

/-- **C9.** In dry-run mode the directory-listing GET request to the
examples API endpoint is still issued, and a failure of that listing
request still makes the program print an error to stderr and exit with
code 1 even under `--dry-run`. -/
theorem dryRun_listing_still_requested (args : List String) (net : Net)
    (h : "--dry-run" ∈ args) :
    .get examplesApiUrl ∈ (runScript args net).1
    ∧ (listingFailsB net = true →
        (runScript args net).2 = .exited 1
        ∧ .eprint listingErrMsg ∈ (runScript args net).1) := by
  have hc : args.contains "--dry-run" = true := by simpa using h
  obtain ⟨tail, htr, _⟩ := runScript_dryRun_trace args net hc
  constructor
  · rw [htr]
    simp
  · intro hf
    have hspec : (download_file args net (.str mainSpecUrl)
        (TARGET_DIR ++ ["managedClusters.json"])).2 = .ok () := by
      rw [download_file_dryRun args net hc]
    have hm := main_listing_fail args net hspec hf
    exact ⟨by simp [runScript, hm], by simp [runScript, hm]⟩

/-- **C9 (witness).** -/
theorem dryRun_listing_still_requested_witness :
    Event.get examplesApiUrl ∈ (runScript ["x", "--dry-run"] netListing404).1
    ∧ (runScript ["x", "--dry-run"] netListing404).2 = .exited 1 :=
  ⟨(dryRun_listing_still_requested ["x", "--dry-run"] netListing404 (by decide)).1,
   ((dryRun_listing_still_requested ["x", "--dry-run"] netListing404 (by decide)).2
      (by decide)).1⟩

/-- **C1 (witness).** -/
theorem dryRun_no_mkdir_no_write_witness :
    (Event.get examplesApiUrl).isMkdir = false
    ∧ (Event.get examplesApiUrl).isWrite = false :=
  dryRun_no_mkdir_no_write ["scripts/download_aks_specs.py", "--dry-run"] netAllErr
    (by decide) (Event.get examplesApiUrl) (by decide)

/-! ### A failing individual download is fatal -/

theorem processExamples_cons_fail (args : List String) (net : Net) (nm u : String)
    (rest : List Json) (c : Nat) (hdry : args.contains "--dry-run" = false)
    (hfail : dlOk args net u = false) :
    processExamples args net (fileEntry nm u :: rest) c =
      ([.print ("  - " ++ nm), .get u, .eprint (downloadErrMsg u)],
       .error (.systemExit 1)) := by
  have hdf := download_file_get_fail args net u (TARGET_DIR ++ ["examples", nm]) hdry hfail
  simp [processExamples, fileEntry, pySubscript, jlookup, isFileType, asString,
    pyFormat, hdf]

/-- **C3.** When an individual file download fails (network error or HTTP
error status), the process terminates with exit code 1 immediately after
printing an error to stderr: the run's trace ends at that error, so no
subsequent listing entries are processed, and the write events of all files
downloaded before the failure remain in the trace (no rollback). -/
theorem download_failure_terminates_immediately (args : List String) (net : Net)
    (r : HttpResponse) (pre post : List Json) (nm u : String)
    (hdry : args.contains "--dry-run" = false)
    (hspec : dlOk args net mainSpecUrl = true)
    (hn : net examplesApiUrl = .resp r) (hs : r.status < 400)
    (hj : r.jsonBody = some (.arr (pre ++ fileEntry nm u :: post)))
    (hpre : ∀ j ∈ pre, entryOk args net j = true)
    (hfail : dlOk args net u = false) :
    (runScript args net).2 = .exited 1
    ∧ (runScript args net).1 =
        [.print ("Script arguments: " ++ fmtArgs args),
         .print ("Project root: " ++ pathStr PROJECT_ROOT),
         .print ("Target directory: " ++ pathStr TARGET_DIR)]
        ++ preambleTrace args
        ++ [.get mainSpecUrl,
            .write (TARGET_DIR ++ ["managedClusters.json"]) (respBody net mainSpecUrl),
            .print "Getting list of example files...",
            .get examplesApiUrl, .print "Downloading example files..."]
        ++ (pre.map (entryTrace args net)).flatten
        ++ [.print ("  - " ++ nm), .get u, .eprint (downloadErrMsg u)]
    ∧ ∀ p c, .write p c ∈ (pre.map (entryTrace args net)).flatten →
        .write p c ∈ (runScript args net).1 := by
  have hspec2 := download_file_ok_notDry args net mainSpecUrl
    (TARGET_DIR ++ ["managedClusters.json"]) hdry hspec
  have hspec3 : (download_file args net (.str mainSpecUrl)
      (TARGET_DIR ++ ["managedClusters.json"])).2 = .ok () := by
    rw [hspec2]
  have hloop : processExamples args net (pre ++ fileEntry nm u :: post) 0 =
      ((pre.map (entryTrace args net)).flatten
         ++ [.print ("  - " ++ nm), .get u, .eprint (downloadErrMsg u)],
       .error (.systemExit 1)) := by
    rw [processExamples_append args net pre _ 0 hpre,
      processExamples_cons_fail args net nm u post _ hdry hfail]
  have hs2 : ¬ (400 ≤ r.status ∧ r.status < 600) := by omega
  have htb : tryBlock args net =
      (.get examplesApiUrl :: .print "Downloading example files..."
         :: ((pre.map (entryTrace args net)).flatten
              ++ [.print ("  - " ++ nm), .get u, .eprint (downloadErrMsg u)]),
       .error (.systemExit 1)) := by
    simp [tryBlock, hn, hs2, hj, pyIter, hloop]
  have hm : main args net =
      (preambleTrace args
        ++ (download_file args net (.str mainSpecUrl) (TARGET_DIR ++ ["managedClusters.json"])).1
        ++ [.print "Getting list of example files..."]
        ++ (tryBlock args net).1,
       .error (.systemExit 1)) := by
    simp [main, hspec3, htb]
  have htrace : (runScript args net).1 =
      [.print ("Script arguments: " ++ fmtArgs args),
       .print ("Project root: " ++ pathStr PROJECT_ROOT),
       .print ("Target directory: " ++ pathStr TARGET_DIR)]
      ++ preambleTrace args
      ++ [.get mainSpecUrl,
          .write (TARGET_DIR ++ ["managedClusters.json"]) (respBody net mainSpecUrl),
          .print "Getting list of example files...",
          .get examplesApiUrl, .print "Downloading example files..."]
      ++ (pre.map (entryTrace args net)).flatten
      ++ [.print ("  - " ++ nm), .get u, .eprint (downloadErrMsg u)] := by
    simp [runScript, hm, hspec2, htb]
  refine ⟨by simp [runScript, hm], htrace, ?_⟩
  intro p c hw
  rw [htrace]
  simp [hw]

/-- **C3 (witness):** with two file entries where the second download
returns HTTP 500, the run exits 1 and the first file's write is still in
the trace. -/
theorem download_failure_terminates_immediately_witness :
    (runScript ["x"] netSecondFails).2 = .exited 1
    ∧ .write (TARGET_DIR ++ ["examples", "a.json"]) [7, 8]
        ∈ (runScript ["x"] netSecondFails).1 :=
  ⟨(download_failure_terminates_immediately ["x"] netSecondFails
      ⟨200, [123], some (.arr [fileEntry "a.json" "http://x/a.json",
        fileEntry "b.json" "http://x/b.json"])⟩
      [fileEntry "a.json" "http://x/a.json"] [] "b.json" "http://x/b.json"
      (by decide) (by decide) rfl (by decide) rfl (by decide) (by decide)).1,
   (download_failure_terminates_immediately ["x"] netSecondFails
      ⟨200, [123], some (.arr [fileEntry "a.json" "http://x/a.json",
        fileEntry "b.json" "http://x/b.json"])⟩
      [fileEntry "a.json" "http://x/a.json"] [] "b.json" "http://x/b.json"
      (by decide) (by decide) rfl (by decide) rfl (by decide) (by decide)).2.2
      (TARGET_DIR ++ ["examples", "a.json"]) [7, 8] (by decide)⟩

/-! ### The summary count and the set of downloads -/

/-- **C4.** For a successful listing response that is a JSON array whose
file-type entries number `countFiles xs` (with any number of non-file
entries), the run prints a summary reporting `countFiles xs + 1` files
together with the target directory. -/
theorem summary_reports_count_plus_one (args : List String) (net : Net)
    (r : HttpResponse) (xs : List Json)
    (hspec : dlOk args net mainSpecUrl = true)
    (hn : net examplesApiUrl = .resp r) (hs : r.status < 400)
    (hj : r.jsonBody = some (.arr xs))
    (hx : ∀ j ∈ xs, entryOk args net j = true) :
    .print ("Download completed"
      ++ (if args.contains "--dry-run" then " (dry run - no files were actually downloaded)" else "")
      ++ ". " ++ toString (countFiles xs + 1) ++ " files would be downloaded to "
      ++ pathStr TARGET_DIR ++ "/") ∈ (runScript args net).1 := by
  have hspec2 := download_file_of_dlOk args net mainSpecUrl
    (TARGET_DIR ++ ["managedClusters.json"]) hspec
  have hmo := main_ok args net r xs hspec2 hn hs hj hx
  simp [runScript, hmo, summaryMsg]

/-- **C4 (witness):** one file entry plus one directory entry produce a
summary reporting 2 files. -/
theorem summary_reports_count_plus_one_witness :
    .print ("Download completed. 2 files would be downloaded to <project-root>/azure_spec/")
      ∈ (runScript ["x"] netGood).1 := by
  have h := summary_reports_count_plus_one ["x"] netGood
    ⟨200, [123], some (.arr [fileEntry "a.json" "http://x/a.json", dirEntry])⟩
    [fileEntry "a.json" "http://x/a.json", dirEntry]
    (by decide) rfl (by decide) rfl (by decide)
  have hstr : ("Download completed"
      ++ (if (["x"] : List String).contains "--dry-run" then " (dry run - no files were actually downloaded)" else "")
      ++ ". " ++ toString (countFiles [fileEntry "a.json" "http://x/a.json", dirEntry] + 1)
      ++ " files would be downloaded to " ++ pathStr TARGET_DIR ++ "/")
      = "Download completed. 2 files would be downloaded to <project-root>/azure_spec/" := by
    decide
  rw [hstr] at h
  exact h

theorem entryTrace_file (args : List String) (net : Net) (j : Json)
    (hdry : args.contains "--dry-run" = false)
    (hok : entryOk args net j = true) (hf : isFileEntry j = true) :
    entryTrace args net j =
      [.print ("  - " ++ entryName j), .get (entryUrl j),
       .write (TARGET_DIR ++ ["examples", entryName j]) (respBody net (entryUrl j))] := by
  rcases j with _ | b | n | s | elems | fields
  · exact Bool.noConfusion hok
  · exact Bool.noConfusion hok
  · exact Bool.noConfusion hok
  · exact Bool.noConfusion hok
  · exact Bool.noConfusion hok
  simp only [entryOk] at hok
  rcases hT : jlookup fields "type" with _ | t
  · simp only [hT] at hok
    exact Bool.noConfusion hok
  simp only [hT] at hok
  rcases hft : isFileType t with _ | _
  · simp only [isFileEntry, hT, hft] at hf
    exact Bool.noConfusion hf
  · simp only [hft, if_true] at hok
    rcases hN : jlookup fields "name" with _ | nm
    · simp only [hN] at hok
      exact Bool.noConfusion hok
    simp only [hN] at hok
    rcases hU : jlookup fields "download_url" with _ | du
    · simp only [hU] at hok
      exact Bool.noConfusion hok
    simp only [hU] at hok
    rcases nm with _ | b2 | n2 | nms | es2 | fs2 <;> try simp at hok
    rcases du with _ | b3 | n3 | dus | es3 | fs3 <;> try simp at hok
    have hdf := download_file_ok_notDry args net dus
      (TARGET_DIR ++ ["examples", nms]) hdry hok
    simp [entryTrace, entryName, entryUrl, hT, hft, hN, hU, hdf]

theorem entryTrace_nonfile (args : List String) (net : Net) (j : Json)
    (hf : isFileEntry j = false) :
    entryTrace args net j = [] := by
  rcases j with _ | b | n | s | elems | fields
  · rfl
  · rfl
  · rfl
  · rfl
  · rfl
  rcases hT : jlookup fields "type" with _ | t
  · simp [entryTrace, hT]
  · have hft : isFileType t = false := by simpa [isFileEntry, hT] using hf
    simp [entryTrace, hT, hft]

theorem flatten_filter_events (args : List String) (net : Net) (xs : List Json)
    (hdry : args.contains "--dry-run" = false)
    (hx : ∀ j ∈ xs, entryOk args net j = true) :
    ((xs.map (entryTrace args net)).flatten.filter Event.isWrite)
      = (xs.filter isFileEntry).map
          (fun j => .write (TARGET_DIR ++ ["examples", entryName j])
            (respBody net (entryUrl j)))
    ∧ ((xs.map (entryTrace args net)).flatten.filter Event.isGet)
      = (xs.filter isFileEntry).map (fun j => .get (entryUrl j)) := by
  induction xs with
  | nil => simp
  | cons j rest ih =>
    have hj := hx j (by simp)
    have hrest : ∀ k ∈ rest, entryOk args net k = true := fun k hk => hx k (by simp [hk])
    obtain ⟨ihW, ihG⟩ := ih hrest
    rcases hf : isFileEntry j with _ | _
    · simp [entryTrace_nonfile args net j hf, hf, ihW, ihG]
    · simp [entryTrace_file args net j hdry hj hf, hf, ihW, ihG,
        Event.isWrite, Event.isGet]

/-- **C5.** Listing entries whose `type` is not `"file"` are neither
downloaded nor counted: in a successful non-dry-run the file writes of the
run are exactly the main spec write followed by one write per file-type
entry, into the examples subdirectory under the listing-reported name; the
GET requests are exactly the main spec, the listing, and one per file-type
entry; and the printed summary counts only the file-type entries. -/
theorem only_file_entries_downloaded (args : List String) (net : Net)
    (r : HttpResponse) (xs : List Json)
    (hdry : args.contains "--dry-run" = false)
    (hspec : dlOk args net mainSpecUrl = true)
    (hn : net examplesApiUrl = .resp r) (hs : r.status < 400)
    (hj : r.jsonBody = some (.arr xs))
    (hx : ∀ j ∈ xs, entryOk args net j = true) :
    ((runScript args net).1.filter Event.isWrite)
      = .write (TARGET_DIR ++ ["managedClusters.json"]) (respBody net mainSpecUrl)
        :: (xs.filter isFileEntry).map
             (fun j => .write (TARGET_DIR ++ ["examples", entryName j])
               (respBody net (entryUrl j)))
    ∧ ((runScript args net).1.filter Event.isGet)
      = .get mainSpecUrl :: .get examplesApiUrl
        :: (xs.filter isFileEntry).map (fun j => .get (entryUrl j))
    ∧ .print (summaryMsg args (countFiles xs)) ∈ (runScript args net).1 := by
  have hspec2 := download_file_ok_notDry args net mainSpecUrl
    (TARGET_DIR ++ ["managedClusters.json"]) hdry hspec
  have hspec3 : (download_file args net (.str mainSpecUrl)
      (TARGET_DIR ++ ["managedClusters.json"])).2 = .ok () := by
    rw [hspec2]
  have hmo := main_ok args net r xs hspec3 hn hs hj hx
  obtain ⟨hW, hG⟩ := flatten_filter_events args net xs hdry hx
  have hdm : ¬ ("--dry-run" ∈ args) := by simpa using hdry
  refine ⟨?_, ?_, by simp [runScript, hmo]⟩
  · simp [runScript, hmo, hspec2, preambleTrace, hdry, hdm, List.filter_append, hW,
      Event.isWrite, Event.isGet]
  · simp [runScript, hmo, hspec2, preambleTrace, hdry, hdm, List.filter_append, hG,
      Event.isWrite, Event.isGet]

/-- **C5 (witness):** with one file entry and one directory entry, exactly
two writes occur (main spec and the file entry) and exactly three GETs. -/
theorem only_file_entries_downloaded_witness :
    ((runScript ["x"] netGood).1.filter Event.isWrite)
      = [.write (TARGET_DIR ++ ["managedClusters.json"]) [7, 8],
         .write (TARGET_DIR ++ ["examples", "a.json"]) [7, 8]] := by
  have h := (only_file_entries_downloaded ["x"] netGood
    ⟨200, [123], some (.arr [fileEntry "a.json" "http://x/a.json", dirEntry])⟩
    [fileEntry "a.json" "http://x/a.json", dirEntry]
    (by decide) (by decide) rfl (by decide) rfl (by decide)).1
  rw [h]
  decide

/-! ### The download helper's contract -/

/-- **C6.** The download helper, given a URL and a destination path, does
nothing at all when the dry-run flag is set; otherwise it issues a single
GET request, treats a network failure or an HTTP error status (a status in
400..599, exactly what `raise_for_status` raises on) as fatal (stderr
message, `sys.exit(1)`), and for every other status writes exactly the raw
response body to the destination path, overwriting any existing file
there. -/
theorem download_file_contract (args : List String) (net : Net) (u : String)
    (dest : List String) :
    ("--dry-run" ∈ args → download_file args net (.str u) dest = ([], .ok ()))
    ∧ ("--dry-run" ∉ args →
        (net u = .netErr →
          download_file args net (.str u) dest
            = ([.get u, .eprint (downloadErrMsg u)], .error (.systemExit 1)))
        ∧ (∀ r, net u = .resp r → 400 ≤ r.status → r.status < 600 →
            download_file args net (.str u) dest
              = ([.get u, .eprint (downloadErrMsg u)], .error (.systemExit 1)))
        ∧ (∀ r, net u = .resp r → ¬ (400 ≤ r.status ∧ r.status < 600) →
            download_file args net (.str u) dest
              = ([.get u, .write dest r.body], .ok ())
            ∧ ∀ fs : FS, runFS fs (download_file args net (.str u) dest).1 dest
                = some r.body)) := by
  constructor
  · intro h
    exact download_file_dryRun args net (by simpa using h) _ _
  · intro h
    have hdry : args.contains "--dry-run" = false := by simpa using h
    refine ⟨?_, ?_, ?_⟩
    · intro hn
      unfold download_file
      rw [hdry]
      simp [hn]
    · intro r hn hs1 hs2
      unfold download_file
      rw [hdry]
      simp only [Bool.false_eq_true, if_false, hn]
      rw [if_pos ⟨hs1, hs2⟩]
    · intro r hn hs
      have heq : download_file args net (.str u) dest
          = ([.get u, .write dest r.body], .ok ()) := by
        unfold download_file
        rw [hdry]
        simp only [Bool.false_eq_true, if_false, hn]
        rw [if_neg hs]
      refine ⟨heq, ?_⟩
      intro fs
      rw [heq]
      simp [runFS, applyEvent]

/-- **C6 (witness):** at status 700 — outside the 400..599 window —
`raise_for_status` is silent, so the helper writes the body and returns
normally. -/
theorem download_file_contract_witness :
    download_file ["x"] netStatus700 (.str "http://x/w.json") ["d"]
      = ([.get "http://x/w.json", .write ["d"] [9]], .ok ()) :=
  (((download_file_contract ["x"] netStatus700 "http://x/w.json" ["d"]).2
      (by decide)).2.2 ⟨700, [9], none⟩ rfl (by decide)).1

/-! ### What the argument list can influence -/

theorem download_file_args_congr (a1 a2 : List String) (net : Net)
    (h : a1.contains "--dry-run" = a2.contains "--dry-run") (url : Json)
    (dest : List String) :
    download_file a1 net url dest = download_file a2 net url dest := by
  unfold download_file
  rw [h]

theorem processExamples_args_congr (a1 a2 : List String) (net : Net)
    (h : a1.contains "--dry-run" = a2.contains "--dry-run") :
    ∀ (xs : List Json) (c : Nat),
      processExamples a1 net xs c = processExamples a2 net xs c := by
  intro xs
  induction xs with
  | nil => intro c; rfl
  | cons x rest ih =>
    intro c
    simp only [processExamples, download_file_args_congr a1 a2 net h, ih]

theorem summaryMsg_args_congr (a1 a2 : List String)
    (h : a1.contains "--dry-run" = a2.contains "--dry-run") (c : Nat) :
    summaryMsg a1 c = summaryMsg a2 c := by
  unfold summaryMsg
  rw [h]

theorem preambleTrace_args_congr (a1 a2 : List String)
    (h : a1.contains "--dry-run" = a2.contains "--dry-run") :
    preambleTrace a1 = preambleTrace a2 := by
  unfold preambleTrace
  rw [h]

theorem tryBlock_args_congr (a1 a2 : List String) (net : Net)
    (h : a1.contains "--dry-run" = a2.contains "--dry-run") :
    tryBlock a1 net = tryBlock a2 net := by
  simp only [tryBlock, processExamples_args_congr a1 a2 net h,
    summaryMsg_args_congr a1 a2 h]

theorem main_args_congr (a1 a2 : List String) (net : Net)
    (h : a1.contains "--dry-run" = a2.contains "--dry-run") :
    main a1 net = main a2 net := by
  simp only [main, download_file_args_congr a1 a2 net h,
    tryBlock_args_congr a1 a2 net h, preambleTrace_args_congr a1 a2 h]

/-- **C8 (counterexample).** Two argument lists that agree on `--dry-run`
membership do not produce identical behaviour: the `__main__` block echoes
the raw argument list to stdout, so the traces differ in their first print
event. -/
theorem argv_echo_differs :
    (("--dry-run" ∈ ["extra"]) ↔ ("--dry-run" ∈ ([] : List String)))
    ∧ (runScript ["extra"] netAllErr).1 ≠ (runScript [] netAllErr).1 := by
  constructor
  · decide
  · decide

/-- **C8 (amended).** For two argument lists that agree on `--dry-run`
membership, the runs have the same termination result and the same trace
apart from the initial line echoing the raw argument list: no other flag
and no positional argument influences execution. -/
theorem args_affect_only_dryRun_flag (a1 a2 : List String) (net : Net)
    (h : a1.contains "--dry-run" = a2.contains "--dry-run") :
    (runScript a1 net).2 = (runScript a2 net).2
    ∧ ((runScript a1 net).1.drop 1) = ((runScript a2 net).1.drop 1) := by
  have hm := main_args_congr a1 a2 net h
  constructor
  · simp [runScript, hm]
  · simp [runScript, hm]

/-- **C8 (witness).** -/
theorem args_affect_only_dryRun_flag_witness :
    (runScript ["a"] netAllErr).2 = (runScript ["b"] netAllErr).2 :=
  (args_affect_only_dryRun_flag ["a"] ["b"] netAllErr (by decide)).1

/-! ### Missing listing keys raise uncaught exceptions -/

theorem processExamples_cons_keyErr (args : List String) (net : Net)
    (fields : List (String × Json)) (rest : List Json) (c : Nat) (k : String)
    (hk : firstMissingKey fields = some k) :
    processExamples args net (.obj fields :: rest) c
      = ([], .error (.keyError k)) := by
  unfold firstMissingKey at hk
  rcases hT : jlookup fields "type" with _ | t
  · simp only [hT] at hk
    obtain rfl : "type" = k := by simpa using hk
    simp [processExamples, pySubscript, hT]
  · simp only [hT] at hk
    rcases hft : isFileType t with _ | _
    · simp only [hft, Bool.false_eq_true, if_false] at hk
      exact Option.noConfusion hk
    · simp only [hft, if_true] at hk
      rcases hN : jlookup fields "name" with _ | nm
      · simp only [hN] at hk
        obtain rfl : "name" = k := by simpa using hk
        simp [processExamples, pySubscript, hT, hft, hN]
      · simp only [hN] at hk
        rcases hU : jlookup fields "download_url" with _ | du
        · simp only [hU] at hk
          obtain rfl : "download_url" = k := by simpa using hk
          simp [processExamples, pySubscript, hT, hft, hN, hU]
        · simp only [hU] at hk
          exact Option.noConfusion hk

theorem download_file_ok_no_eprint (args : List String) (net : Net) (u : String)
    (dest : List String) (m : String) (h : dlOk args net u = true) :
    .eprint m ∉ (download_file args net (.str u) dest).1 := by
  rcases hd : args.contains "--dry-run" with _ | _
  · rw [download_file_ok_notDry args net u dest hd h]
    simp
  · rw [download_file_dryRun args net hd]
    simp

theorem entryTrace_no_eprint (args : List String) (net : Net) (j : Json)
    (m : String) (hok : entryOk args net j = true) :
    .eprint m ∉ entryTrace args net j := by
  rcases j with _ | b | n | s | elems | fields
  · simp [entryTrace]
  · simp [entryTrace]
  · simp [entryTrace]
  · simp [entryTrace]
  · simp [entryTrace]
  simp only [entryOk] at hok
  rcases hT : jlookup fields "type" with _ | t
  · simp [entryTrace, hT]
  simp only [hT] at hok
  rcases hft : isFileType t with _ | _
  · simp [entryTrace, hT, hft]
  simp only [hft, if_true] at hok
  rcases hN : jlookup fields "name" with _ | nm
  · simp only [hN] at hok
    exact Bool.noConfusion hok
  simp only [hN] at hok
  rcases hU : jlookup fields "download_url" with _ | du
  · simp only [hU] at hok
    exact Bool.noConfusion hok
  simp only [hU] at hok
  rcases nm with _ | b2 | n2 | nms | es2 | fs2 <;> try simp at hok
  rcases du with _ | b3 | n3 | dus | es3 | fs3 <;> try simp at hok
  simp only [entryTrace, hT, hft, hN, hU, if_true]
  intro hmem
  rcases List.mem_cons.mp hmem with heq | hmem2
  · exact Event.noConfusion heq
  · exact download_file_ok_no_eprint args net dus
      (TARGET_DIR ++ ["examples", nms]) m hok hmem2

/-- **C10.** If the listing is a valid JSON array but some entry lacks a
`type` key, or a file-type entry lacks a `name` or `download_url` key, the
resulting `KeyError` is not caught by the listing-failure handler (which
only catches the HTTP-request exception class): the process terminates via
an uncaught exception, and the listing-failure error message is never
printed. -/
theorem missing_key_raises_uncaught (args : List String) (net : Net)
    (r : HttpResponse) (pre post : List Json) (fields : List (String × Json))
    (k : String)
    (hspec : dlOk args net mainSpecUrl = true)
    (hn : net examplesApiUrl = .resp r) (hs : r.status < 400)
    (hj : r.jsonBody = some (.arr (pre ++ .obj fields :: post)))
    (hpre : ∀ j ∈ pre, entryOk args net j = true)
    (hk : firstMissingKey fields = some k) :
    (runScript args net).2 = .uncaughtExc (.keyError k)
    ∧ .eprint listingErrMsg ∉ (runScript args net).1 := by
  have hspec2 := download_file_of_dlOk args net mainSpecUrl
    (TARGET_DIR ++ ["managedClusters.json"]) hspec
  have hloop : processExamples args net (pre ++ .obj fields :: post) 0 =
      ((pre.map (entryTrace args net)).flatten, .error (.keyError k)) := by
    rw [processExamples_append args net pre _ 0 hpre,
      processExamples_cons_keyErr args net fields post _ k hk]
    simp
  have hs2 : ¬ (400 ≤ r.status ∧ r.status < 600) := by omega
  have htb : tryBlock args net =
      (.get examplesApiUrl :: .print "Downloading example files..."
        :: (pre.map (entryTrace args net)).flatten,
       .error (.keyError k)) := by
    simp [tryBlock, hn, hs2, hj, pyIter, hloop]
  have hm : main args net =
      (preambleTrace args
        ++ (download_file args net (.str mainSpecUrl)
             (TARGET_DIR ++ ["managedClusters.json"])).1
        ++ [.print "Getting list of example files..."] ++ (tryBlock args net).1,
       .error (.keyError k)) := by
    simp [main, hspec2, htb]
  constructor
  · simp [runScript, hm]
  · intro hmem
    rcases hdc : args.contains "--dry-run" with _ | _ <;>
    · simp only [runScript, hm, htb, preambleTrace, hdc] at hmem
      simp at hmem
      rcases hmem with hmem | hmem
      · exact download_file_ok_no_eprint args net mainSpecUrl
          (TARGET_DIR ++ ["managedClusters.json"]) listingErrMsg hspec hmem
      · obtain ⟨j, hj, hel⟩ := hmem
        exact entryTrace_no_eprint args net j listingErrMsg (hpre j hj) hel

/-- **C10 (witness):** a single entry with no `type` key terminates the
run with an uncaught `KeyError`. -/
theorem missing_key_raises_uncaught_witness :
    (runScript ["x"] netMissingType).2 = .uncaughtExc (.keyError "type") :=
  (missing_key_raises_uncaught ["x"] netMissingType
    ⟨200, [123], some (.arr [.obj [("name", .str "a.json")]])⟩
    [] [] [("name", .str "a.json")] "type"
    (by decide) rfl (by decide) rfl (by decide) (by decide)).1

end AksSpecs
